import Mathlib

/-!
Shallow embedding of the tglog library (Go package `tglog`, files
`tglog.go` and `helpers.go`).

Modelling conventions:
* `LogLevel` is the five-constant enumeration `Debug < Info < Warning <
  Error < Fatal` (Go `iota` values 0..4); the numeric order used by the
  source's `level < l.config.MinLevel` comparison is exposed through
  `LogLevel.toNat`.  The `default` branch of `getLogLevelPrefix` is
  unreachable for values of the enumeration and is therefore not
  represented.
* `fmt.Sprintf(format, args...)` and `now.Format(l.config.TimeFormat)`
  are abstracted as the already-rendered strings `content` and
  `timestamp`; the claims under study quantify over the rendered body
  and timestamp, never over the printf substitution itself.
* The network is abstracted by an outcome oracle: `PostOutcome` is what
  `l.httpClient.Post` returned (a transport error, or a response with a
  status code), and a `marshalOk` flag is what `json.Marshal` did.
  `sendMessage` returns a `SendTrace` recording its observable effects:
  whether a POST was issued, whether a diagnostic line was written to
  stderr, and whether `os.Exit(1)` was reached.
* The Logger's mutable state (`closed`, the channel contents) is made
  explicit in a `Logger` record; the ghost fields `delivered` and
  `drains` record, respectively, the messages handed to the transport
  by the drain and how many times `Close` executed its drain branch.
  Sequentially, the double-check of `l.closed` in `log` (before and
  after taking the mutex) collapses to a single check.
* The source file stores the level icons as UTF-8 emoji (the comments
  next to them name the glyphs: magnifying glass, information, warning,
  cross mark, skull, question mark); the embedding uses those glyphs.
-/

namespace Tglog

/-- Severity levels of the Go `LogLevel` enumeration, `Debug` lowest. -/
inductive LogLevel where
  | debug
  | info
  | warning
  | error
  | fatal
deriving DecidableEq, Repr

/-- The Go `iota` value of each level; `log` compares levels by this number. -/
def LogLevel.toNat : LogLevel → Nat
  | .debug => 0
  | .info => 1
  | .warning => 2
  | .error => 3
  | .fatal => 4

/-- The `Config` struct (the `HTTPClient` handle is abstracted away: it does
not influence any control flow modelled here). -/
structure Config where
  botToken : String
  chatID : String
  minLevel : LogLevel
  appName : String
  async : Bool
  disableColors : Bool
  timeFormat : String
deriving DecidableEq, Repr

/-- Go `DefaultConfig`: MinLevel Info, Async true, colors on, default time format. -/
def DefaultConfig : Config :=
  { botToken := ""
    chatID := ""
    minLevel := .info
    appName := ""
    async := true
    disableColors := false
    timeFormat := "2006-01-02 15:04:05" }

/-- The `message` struct carried by the channel: severity, rendered content,
and creation time (the rendered timestamp stands in for `time.Time`). -/
structure message where
  level : LogLevel
  content : String
  time : String
deriving DecidableEq, Repr

/-- Logger state.  `config`, `closed` and `msgQueue` mirror the Go struct
fields (`msgQueue` is the channel's pending contents, front = next to be
taken); `delivered` and `drains` are ghost observation fields: the messages
the drain handed to the transport, and how many times `Close` performed the
drain. -/
structure Logger where
  config : Config
  closed : Bool
  msgQueue : List message
  delivered : List message
  drains : Nat
deriving DecidableEq, Repr

/-- Go `New`: reject an empty bot token, then an empty chat ID; default the
time format when empty; the logger starts not closed with an empty queue. -/
def New (config : Config) : Except String Logger :=
  if config.botToken = "" then .error "bot token is required"
  else if config.chatID = "" then .error "chat ID is required"
  else
    let config :=
      if config.timeFormat = "" then
        { config with timeFormat := "2006-01-02 15:04:05" }
      else config
    .ok { config := config, closed := false, msgQueue := [], delivered := [], drains := 0 }

/-- Go `GetLogLevelFromString` (helpers.go): an exact-match switch over the
token, defaulting to Info. -/
def GetLogLevelFromString (level : String) : LogLevel :=
  if level = "debug" then .debug
  else if level = "info" then .info
  else if level = "warning" || level = "warn" then .warning
  else if level = "error" then .error
  else if level = "fatal" then .fatal
  else .info

/-- Go `getLogLevelPrefix`: per level, pick the label and the emoji, wrap the
label in `<code>` (bold for Warning/Error/Fatal) when `colored`, and return
`fmt.Sprintf("%s [%s]", emoji, prefixLabel)`. -/
def getLogLevelPrefix (level : LogLevel) (colored : Bool) : String :=
  match level with
  | .debug =>
      let p := if colored then "<code>DEBUG</code>" else "DEBUG"
      "🔍" ++ " [" ++ p ++ "]"
  | .info =>
      let p := if colored then "<code>INFO</code>" else "INFO"
      "ℹ️" ++ " [" ++ p ++ "]"
  | .warning =>
      let p := if colored then "<b><code>WARNING</code></b>" else "WARNING"
      "⚠️" ++ " [" ++ p ++ "]"
  | .error =>
      let p := if colored then "<b><code>ERROR</code></b>" else "ERROR"
      "❌" ++ " [" ++ p ++ "]"
  | .fatal =>
      let p := if colored then "<b><code>FATAL</code></b>" else "FATAL"
      "💀" ++ " [" ++ p ++ "]"

/-- The icon glyph of each level, read off the branches of
`getLogLevelPrefix`; it does not depend on the color flag. -/
def levelEmoji : LogLevel → String
  | .debug => "🔍"
  | .info => "ℹ️"
  | .warning => "⚠️"
  | .error => "❌"
  | .fatal => "💀"

/-- The severity label of each level as `getLogLevelPrefix` renders it inside
its brackets: the plain name, wrapped in markup when `colored`. -/
def levelTag (level : LogLevel) (colored : Bool) : String :=
  match level with
  | .debug => if colored then "<code>DEBUG</code>" else "DEBUG"
  | .info => if colored then "<code>INFO</code>" else "INFO"
  | .warning => if colored then "<b><code>WARNING</code></b>" else "WARNING"
  | .error => if colored then "<b><code>ERROR</code></b>" else "ERROR"
  | .fatal => if colored then "<b><code>FATAL</code></b>" else "FATAL"

/-- The formatting block of `Logger.log` (lines 143-155 of tglog.go): the
app-name badge `<b>[name]</b> ` when the name is non-empty, then
`fmt.Sprintf("%s%s %s - %s", appName, prefix, timestamp, content)`. -/
def formatMessage (config : Config) (level : LogLevel) (timestamp content : String) : String :=
  let pfx := getLogLevelPrefix level (!config.disableColors)
  let appName := if config.appName = "" then "" else "<b>[" ++ config.appName ++ "]</b> "
  appName ++ pfx ++ " " ++ timestamp ++ " - " ++ content

/-- What `l.httpClient.Post` produced: a transport error (`err != nil`), or a
response carrying an HTTP status code. -/
inductive PostOutcome where
  | postError
  | response (status : Nat)
deriving DecidableEq, Repr

/-- Observable effects of one `sendMessage` invocation. -/
structure SendTrace where
  posted : Bool
  reported : Bool
  exited : Bool
deriving DecidableEq, Repr

/-- Go `Logger.sendMessage`: marshal the JSON body (on failure, report to
stderr and return); POST (on transport error, report and return); report when
the status code is at least 400; finally `os.Exit(1)` when the level is
Fatal. -/
def sendMessage (level : LogLevel) (content : String) (marshalOk : Bool)
    (outcome : PostOutcome) : SendTrace :=
  if !marshalOk then { posted := false, reported := true, exited := false }
  else
    match outcome with
    | .postError => { posted := true, reported := true, exited := false }
    | .response status =>
        { posted := true
          reported := decide (400 ≤ status)
          exited := level == LogLevel.fatal }

/-- What one `log` call did besides updating the state: dropped below the
minimum level, enqueued onto the channel, or sent synchronously by a direct
`sendMessage` call. -/
inductive LogEffect where
  | dropped
  | enqueued (m : message)
  | sentSync (m : message)
deriving DecidableEq, Repr

/-- Go `Logger.log`: drop below the minimum level; otherwise format, and
either enqueue (async and not closed) or fall through to a direct synchronous
`sendMessage`.  Sequentially, the pre-lock and under-lock reads of `l.closed`
coincide, so they appear as one test. -/
def Logger.log (l : Logger) (level : LogLevel) (timestamp content : String) :
    Logger × LogEffect :=
  if level.toNat < l.config.minLevel.toNat then (l, .dropped)
  else
    let formattedMsg := formatMessage l.config level timestamp content
    let m : message := ⟨level, formattedMsg, timestamp⟩
    if l.config.async && !l.closed then
      ({ l with msgQueue := l.msgQueue ++ [m] }, .enqueued m)
    else
      (l, .sentSync m)

/-- Go `Logger.processQueue`: take messages off the channel in FIFO order and
pass each to `sendMessage`; the loop only stops early if a send reached
`os.Exit`.  `marshal` and `outcome` are the per-message oracles; the result is
the list of messages handed to the transport, in order. -/
def processQueue (marshal : message → Bool) (outcome : message → PostOutcome) :
    List message → List message
  | [] => []
  | m :: rest =>
      if (sendMessage m.level m.content (marshal m) (outcome m)).exited then [m]
      else m :: processQueue marshal outcome rest

/-- Go `Logger.Close`: under the mutex, return at once unless async and not
yet closed; otherwise set `closed`, close the channel (the pending messages
are drained by the worker, recorded in `delivered`) and wait for the drain.
The ghost counter `drains` counts executions of this drain branch. -/
def Logger.Close (l : Logger) (marshal : message → Bool)
    (outcome : message → PostOutcome) : Logger :=
  if !l.config.async || l.closed then l
  else
    { l with
      closed := true
      msgQueue := []
      delivered := l.delivered ++ processQueue marshal outcome l.msgQueue
      drains := l.drains + 1 }

/-! Concrete fixtures used by witnesses and counterexamples. -/

/-- A marshal oracle that always succeeds, as `json.Marshal` does on the
string-only `telegramMessage` struct. -/
def msOk : message → Bool := fun _ => true

/-- A post oracle answering HTTP 200 to every delivery. -/
def ocOk : message → PostOutcome := fun _ => .response 200

/-- A post oracle that fails the first fixture message at the transport and
rejects every other one with HTTP 500: every delivery fails. -/
def ocMixed : message → PostOutcome := fun m =>
  if m.content = "a" then .postError else .response 500

/-- A concrete configuration: app name "X", minimum level Info, async mode,
colors disabled. -/
def cfgX : Config :=
  { botToken := "t"
    chatID := "c"
    minLevel := .info
    appName := "X"
    async := true
    disableColors := true
    timeFormat := "YYYY-MM-DD" }

/-- Variant of `cfgX` with colors enabled. -/
def cfgXColor : Config := { cfgX with disableColors := false }

/-- Variant of `cfgX` with an empty app name. -/
def cfgNoName : Config := { cfgX with appName := "" }

/-- The logger `New cfgX` constructs. -/
def loggerX : Logger :=
  (New cfgX).toOption.getD
    { config := cfgX, closed := false, msgQueue := [], delivered := [], drains := 0 }

/-- The logger after `Close` has returned on `loggerX`. -/
def closedLoggerX : Logger := loggerX.Close msOk ocOk

/-- The logger `loggerX` after one accepted Info log call: running, not
closed, one message queued. -/
def loggerQ : Logger := (loggerX.log .info "2025-01-01" "hello").1

/-- The message a post-close Info log call on `closedLoggerX` produces. -/
def msgHello : message :=
  ⟨.info, "<b>[X]</b> ℹ️ [INFO] 2025-01-01 - hello", "2025-01-01"⟩

/-- Fixture messages for the worker-order witness. -/
def msgA : message := ⟨.info, "a", "t1"⟩

def msgB : message := ⟨.error, "b", "t2"⟩

/-- The spec's success notion for a delivery, for comparison with the code:
an HTTP 2xx status. -/
def is2xx (status : Nat) : Bool := decide (200 ≤ status) && decide (status < 300)

/-- Decomposition of `getLogLevelPrefix`: it always renders the level's icon,
a space, and the (possibly markup-wrapped) level label in brackets. -/
theorem getLogLevelPrefix_decomp (level : LogLevel) (colored : Bool) :
    getLogLevelPrefix level colored =
      levelEmoji level ++ " [" ++ levelTag level colored ++ "]" := by
  cases level <;> cases colored <;> rfl

/-- C8: construction returns an error and produces no Logger exactly when the
bot token or the chat ID is empty; with both non-empty it succeeds. -/
theorem new_ok_iff_credentials_nonempty (config : Config) :
    (∃ l, New config = .ok l) ↔ (config.botToken ≠ "" ∧ config.chatID ≠ "") := by
  unfold New
  by_cases h1 : config.botToken = "" <;> by_cases h2 : config.chatID = "" <;>
    simp [h1, h2]

/-- C7 counterexample: the level-from-string mapping is not case-insensitive;
the uppercase token "DEBUG" maps to Info, not to Debug. -/
theorem level_from_string_case_cex :
    GetLogLevelFromString "DEBUG" = LogLevel.info ∧ LogLevel.info ≠ LogLevel.debug := by
  decide

/-- C7 amended: the mapping matches the six lowercase tokens exactly
("warn" and "warning" both give Warning), and every other token — other
letter cases included — maps to Info, never to an error. -/
theorem level_from_string_exact_tokens :
    GetLogLevelFromString "debug" = LogLevel.debug ∧
    GetLogLevelFromString "info" = LogLevel.info ∧
    GetLogLevelFromString "warning" = LogLevel.warning ∧
    GetLogLevelFromString "warn" = LogLevel.warning ∧
    GetLogLevelFromString "error" = LogLevel.error ∧
    GetLogLevelFromString "fatal" = LogLevel.fatal ∧
    ∀ s : String,
      s ∉ (["debug", "info", "warning", "warn", "error", "fatal"] : List String) →
      GetLogLevelFromString s = LogLevel.info := by
  refine ⟨by decide, by decide, by decide, by decide, by decide, by decide, ?_⟩
  intro s hs
  simp only [List.mem_cons, List.not_mem_nil, or_false, not_or] at hs
  obtain ⟨h1, h2, h3, h4, h5, h6⟩ := hs
  unfold GetLogLevelFromString
  simp [h1, h2, h3, h4, h5, h6]

/-- Witness for C7's amended theorem at the unrecognized token "verbose". -/
theorem level_from_string_exact_tokens_witness :
    GetLogLevelFromString "verbose" = LogLevel.info :=
  level_from_string_exact_tokens.2.2.2.2.2.2 "verbose" (by decide)

/-- C6 counterexample: a completed POST with status 303 is not a 2xx success,
yet the code reports nothing for it — the reported-rejection boundary is 400,
not "anything outside 2xx". -/
theorem non2xx_not_reported_cex :
    is2xx 303 = false ∧
    (sendMessage .info "m" true (.response 303)).reported = false := by
  decide

/-- C6 amended: a completed delivery is reported to the diagnostic sink
exactly when its HTTP status is at least 400 (statuses 100-399, the non-2xx
3xx range included, pass silently); a transport-level failure is always
reported. -/
theorem report_iff_status_ge_400 (level : LogLevel) (content : String) (status : Nat) :
    ((sendMessage level content true (.response status)).reported = true ↔ 400 ≤ status) ∧
    (sendMessage level content true .postError).reported = true := by
  unfold sendMessage
  simp

/-- C3 counterexample: a Fatal send does not terminate the process when the
POST fails at the transport, nor when serialization fails — both paths
return before the exit. -/
theorem fatal_skips_exit_on_failure_cex :
    (sendMessage .fatal "boom" true .postError).exited = false ∧
    (sendMessage .fatal "boom" false (.response 200)).exited = false := by
  decide

/-- C3 amended: the send terminates the process exactly when the level is
Fatal, serialization succeeded, and the POST completed with some HTTP status
(success or not); on transport or serialization failure it returns without
exiting. -/
theorem fatal_exits_iff_post_completed (level : LogLevel) (content : String)
    (marshalOk : Bool) (outcome : PostOutcome) :
    (sendMessage level content marshalOk outcome).exited = true ↔
      (level = .fatal ∧ marshalOk = true ∧ ∃ status, outcome = .response status) := by
  unfold sendMessage
  cases marshalOk <;> cases outcome <;> simp [beq_iff_eq]

/-- C4 counterexample: with app name "X", level Info, colors disabled, the
formatted text is not the claimed "[X] [icon INFO] ..." layout: the app badge
is bold-wrapped and the icon sits outside the severity brackets. -/
theorem formatter_layout_cex :
    formatMessage cfgX .info "2025-01-01" "hello" ≠
      "[X] [ℹ️ INFO] 2025-01-01 - hello" ∧
    formatMessage cfgX .info "2025-01-01" "hello" =
      "<b>[X]</b> ℹ️ [INFO] 2025-01-01 - hello" := by
  decide

/-- C4 amended: the formatted text is
app-badge `<b>[name]</b> `, icon, space, bracketed severity label,
timestamp, " - ", body; concretely `<b>[X]</b> ℹ️ [INFO] <date> - hello`
with colors disabled, the severity label gaining `<code>` markup inside the
brackets with colors enabled, and the app badge omitted when the name is
empty. -/
theorem formatter_round_trip :
    formatMessage cfgX .info "2025-01-01" "hello" =
      "<b>[X]</b> ℹ️ [INFO] 2025-01-01 - hello" ∧
    formatMessage cfgXColor .info "2025-01-01" "hello" =
      "<b>[X]</b> ℹ️ [<code>INFO</code>] 2025-01-01 - hello" ∧
    formatMessage cfgNoName .info "2025-01-01" "hello" =
      "ℹ️ [INFO] 2025-01-01 - hello" := by
  decide

/-- C10: with a non-empty app name the badge is always `<b>[name]</b> ` and
the icon glyph is always emitted — `levelEmoji` takes no color flag — while
the colors flag only selects the markup of the bracketed severity label. -/
theorem app_badge_bold_and_icon_unconditional (config : Config) (level : LogLevel)
    (ts content : String) (h : config.appName ≠ "") :
    formatMessage config level ts content =
      ("<b>[" ++ config.appName ++ "]</b> ") ++
        (levelEmoji level ++ " [" ++ levelTag level (!config.disableColors) ++ "]") ++
        " " ++ ts ++ " - " ++ content := by
  unfold formatMessage
  rw [getLogLevelPrefix_decomp]
  simp [h, String.append_assoc]

/-- Witness for C10 at a concrete Error-level call on `cfgX`. -/
theorem app_badge_bold_and_icon_unconditional_witness :
    formatMessage cfgX .error "2025-01-01" "oops" =
      ("<b>[" ++ cfgX.appName ++ "]</b> ") ++
        (levelEmoji .error ++ " [" ++ levelTag .error (!cfgX.disableColors) ++ "]") ++
        " " ++ "2025-01-01" ++ " - " ++ "oops" :=
  app_badge_bold_and_icon_unconditional cfgX .error "2025-01-01" "oops" (by decide)

/-- C9: a log call strictly below the configured minimum returns at once with
the state unchanged and no effect — nothing formatted, enqueued or sent. -/
theorem log_below_min_is_noop (l : Logger) (level : LogLevel) (ts content : String)
    (h : level.toNat < l.config.minLevel.toNat) :
    l.log level ts content = (l, LogEffect.dropped) := by
  unfold Logger.log
  simp [h]

/-- Witness for C9: a Debug call on the Info-threshold logger is dropped. -/
theorem log_below_min_is_noop_witness :
    LogLevel.debug.toNat < loggerX.config.minLevel.toNat ∧
    loggerX.log .debug "t" "m" = (loggerX, LogEffect.dropped) :=
  ⟨by decide, log_below_min_is_noop loggerX .debug "t" "m" (by decide)⟩

/-- C1 counterexample: on the closed async logger, an Info log call is not
silently dropped — it produces a direct synchronous send (a network
request). -/
theorem log_after_close_sends_cex :
    closedLoggerX.closed = true ∧
    (closedLoggerX.log .info "2025-01-01" "hello").2 = LogEffect.sentSync msgHello ∧
    LogEffect.sentSync msgHello ≠ LogEffect.dropped := by
  decide

/-- C1 amended: after close, a log call at or above the minimum enqueues
nothing and leaves the state unchanged, but it is delivered synchronously by
a direct send — a network request is issued — rather than silently dropped. -/
theorem log_after_close_sends_sync (l : Logger) (level : LogLevel) (ts content : String)
    (hclosed : l.closed = true) (hlvl : l.config.minLevel.toNat ≤ level.toNat) :
    l.log level ts content =
      (l, LogEffect.sentSync ⟨level, formatMessage l.config level ts content, ts⟩) := by
  unfold Logger.log
  simp [Nat.not_lt.mpr hlvl, hclosed]

/-- Witness for C1's amended theorem: a Warning call on the closed logger. -/
theorem log_after_close_sends_sync_witness :
    closedLoggerX.log .warning "t" "m" =
      (closedLoggerX,
        LogEffect.sentSync ⟨.warning, formatMessage closedLoggerX.config .warning "t" "m", "t"⟩) :=
  log_after_close_sends_sync closedLoggerX .warning "t" "m" (by decide) (by decide)

/-- C2: on a queue free of Fatal messages, the worker hands every message to
the transport in exactly the order accepted (the queue order — `log` appends
each accepted message at the back), whatever each delivery's outcome: a
failed delivery never stops it from proceeding to the next message. -/
theorem worker_delivers_in_fifo_order (marshal : message → Bool)
    (outcome : message → PostOutcome) (msgs : List message)
    (h : ∀ m ∈ msgs, m.level ≠ LogLevel.fatal) :
    processQueue marshal outcome msgs = msgs := by
  induction msgs with
  | nil => rfl
  | cons m rest ih =>
      have hm : m.level ≠ LogLevel.fatal := h m (List.mem_cons_self m rest)
      have hrest : ∀ x ∈ rest, x.level ≠ LogLevel.fatal := fun x hx =>
        h x (List.mem_cons_of_mem m hx)
      have hexit : (sendMessage m.level m.content (marshal m) (outcome m)).exited = false := by
        unfold sendMessage
        cases hmar : marshal m with
        | false => simp
        | true =>
            cases hoc : outcome m with
            | postError => simp
            | response s => simpa using hm
      simp [processQueue, hexit, ih hrest]

/-- Witness for C2: two non-Fatal messages where the first delivery fails at
the transport and the second is rejected with HTTP 500; both are still handed
over, in order. -/
theorem worker_delivers_in_fifo_order_witness :
    processQueue msOk ocMixed [msgA, msgB] = [msgA, msgB] :=
  worker_delivers_in_fifo_order msOk ocMixed [msgA, msgB] (by decide)

/-- C5: close performs the drain exactly once.  A second close (and hence any
later one) returns the state of the first unchanged, so nothing is drained or
delivered twice; and the first close on an async, not-yet-closed logger does
perform the drain: it marks the logger closed, increments the drain count by
one, and hands every queued message to the transport. -/
theorem close_drains_exactly_once (l : Logger) (marshal : message → Bool)
    (outcome : message → PostOutcome) :
    (l.Close marshal outcome).Close marshal outcome = l.Close marshal outcome ∧
    (l.Close marshal outcome).drains ≤ l.drains + 1 ∧
    (l.config.async = true → l.closed = false →
      (l.Close marshal outcome).closed = true ∧
      (l.Close marshal outcome).drains = l.drains + 1 ∧
      (l.Close marshal outcome).delivered =
        l.delivered ++ processQueue marshal outcome l.msgQueue) := by
  unfold Logger.Close
  cases hb : (!l.config.async || l.closed) with
  | true =>
      refine ⟨by simp [hb], by simp [hb], ?_⟩
      intro h1 h2
      rw [h1, h2] at hb
      simp at hb
  | false =>
      have ha : (!l.config.async) = false := by
        cases hx : (!l.config.async) with
        | false => rfl
        | true => rw [hx] at hb; simp at hb
      refine ⟨by simp [hb, ha], by simp [hb], ?_⟩
      intro h1 h2
      simp [hb]

/-- Witness for C5 on a running async logger holding one queued message: the
first close drains it (drain count up by one, the message delivered). -/
theorem close_drains_exactly_once_witness :
    (loggerQ.Close msOk ocOk).closed = true ∧
    (loggerQ.Close msOk ocOk).drains = loggerQ.drains + 1 ∧
    (loggerQ.Close msOk ocOk).delivered =
      loggerQ.delivered ++ processQueue msOk ocOk loggerQ.msgQueue :=
  (close_drains_exactly_once loggerQ msOk ocOk).2.2 (by decide) (by decide)

end Tglog
